import Mathlib

/-!
Verification of the blackholeCalc analytic core: unit conversion, the
spacetime metric models (Schwarzschild, Kerr, Reissner-Nordstrom,
Kerr-Newman), the black-hole classifier, the thermodynamics engine, the
gravitational-wave chirp synthesizer, and the secondary model family used by
the run-orchestration layer.

Python floats are modelled by exact rationals (ℚ) and reals (ℝ).  Where
IEEE-754 special values (NaN, +infinity) are observable in the code they are
modelled explicitly: `PyFloat` models a float argument that may be NaN or
infinite (used by the constructor-validation layer), and `RVal` models a
float return value that may be the +infinity sentinel or NaN.
-/

open scoped Classical

namespace PhysicalConstants

/-- Gravitational constant G = 6.67430e-11 m^3 kg^-1 s^-2
(maths/constants.py, scipy CODATA 2018 value). -/
def G : ℚ := 66743 / 10 ^ 15

/-- Speed of light c = 299792458 m/s (maths/constants.py). -/
def c : ℚ := 299792458

/-- Solar mass 1.98847e30 kg (maths/constants.py). -/
def M_sun : ℚ := 198847 * 10 ^ 25

end PhysicalConstants

namespace UnitManager

/-- Mass conversion M [m] = G * m [kg] / c^2 (maths/units.py). -/
def mass_si_to_geom (mass_kg : ℚ) : ℚ :=
  PhysicalConstants.G * mass_kg / PhysicalConstants.c ^ 2

/-- Mass conversion m [kg] = M [m] * c^2 / G (maths/units.py). -/
def mass_geom_to_si (mass_m : ℚ) : ℚ :=
  mass_m * PhysicalConstants.c ^ 2 / PhysicalConstants.G

/-- Time conversion t [s] = t [m] / c (maths/units.py). -/
def time_geom_to_si (time_m : ℚ) : ℚ :=
  time_m / PhysicalConstants.c

end UnitManager

/-- Model of a Python float argument: a finite rational, +infinity,
-infinity, or NaN. -/
inductive PyFloat where
  | fin (q : ℚ)
  | pinf
  | ninf
  | nan
deriving DecidableEq

namespace PyFloat

/-- IEEE-754 ordering on Python floats: every comparison involving NaN is
false; -infinity is below and +infinity above every non-NaN value. -/
def le : PyFloat → PyFloat → Bool
  | .nan, _ => false
  | _, .nan => false
  | .ninf, _ => true
  | .fin _, .ninf => false
  | .fin a, .fin b => decide (a ≤ b)
  | .fin _, .pinf => true
  | .pinf, .pinf => true
  | .pinf, .fin _ => false
  | .pinf, .ninf => false

/-- Whether a Python float is a finite, strictly positive number. -/
def isFinitePos : PyFloat → Bool
  | .fin q => decide (0 < q)
  | _ => false

end PyFloat

/-- Exception kinds raised by the library.  ValueError is the
InvalidParameter error of the spec; NotImplementedError is the
NotImplemented signal. -/
inductive PyError where
  | typeError
  | valueError
  | notImplementedError
deriving DecidableEq

/-- Whether an Except result is a success. -/
def exceptIsOk {α : Type} : Except PyError α → Bool
  | .ok _ => true
  | .error _ => false

/-- Whether an Except result is an InvalidParameter (ValueError) failure. -/
def exceptIsInvalidParameter {α : Type} : Except PyError α → Bool
  | .error .valueError => true
  | _ => false

/-- Whether an Except result is a NotImplemented failure. -/
def exceptIsNotImplemented {α : Type} : Except PyError α → Bool
  | .error .notImplementedError => true
  | _ => false

namespace GeneralRelativityObject

/-- Validation from GeneralRelativityObject._validate_positive_number
(physics/metrics.py): raises ValueError when value <= 0 under IEEE
comparison.  The isinstance check always passes for float input. -/
def validate_positive_number (value : PyFloat) : Except PyError Unit :=
  if value.le (.fin 0) then .error .valueError else .ok ()

/-- Derived attribute mass_kg = mass_solar * M_sun (physics/metrics.py,
GeneralRelativityObject.__init__). -/
def mass_kg (mass_solar : ℚ) : ℚ := mass_solar * PhysicalConstants.M_sun

/-- Derived geometric mass M = UnitManager.mass_si_to_geom(mass_kg)
(physics/metrics.py, GeneralRelativityObject.__init__). -/
def M (mass_solar : ℚ) : ℚ := UnitManager.mass_si_to_geom (mass_kg mass_solar)

end GeneralRelativityObject

/-- Redshift / horizon-radius return value of a metric method: a finite
real, the float +infinity sentinel, or float NaN. -/
inductive RVal where
  | val (x : ℝ)
  | pinf
  | nan

/-- State of a constructed SchwarzschildMetric (physics/metrics.py). -/
structure SchwarzschildMetric where
  mass_solar : ℚ

/-- State of a constructed KerrMetric (physics/metrics.py); a_star is the
dimensionless spin argument. -/
structure KerrMetric where
  mass_solar : ℚ
  a_star : ℚ

/-- State of a constructed ReissnerNordstromMetric (physics/metrics.py);
Q_star is the dimensionless charge argument. -/
structure ReissnerNordstromMetric where
  mass_solar : ℚ
  Q_star : ℚ

/-- State of a constructed KerrNewmanMetric (physics/metrics.py). -/
structure KerrNewmanMetric where
  mass_solar : ℚ
  a_star : ℚ
  Q_star : ℚ

namespace SchwarzschildMetric

/-- Constructor checks of SchwarzschildMetric.__init__: only the shared
mass validation. -/
def initChecks (mass_solar : PyFloat) : Except PyError Unit :=
  GeneralRelativityObject.validate_positive_number mass_solar

/-- Geometric mass attribute M. -/
def M (b : SchwarzschildMetric) : ℚ := GeneralRelativityObject.M b.mass_solar

/-- Attribute spin = 0.0 set by SchwarzschildMetric.__init__. -/
def spin (_ : SchwarzschildMetric) : ℚ := 0

/-- Attribute charge = 0.0 set by SchwarzschildMetric.__init__. -/
def charge (_ : SchwarzschildMetric) : ℚ := 0

/-- Method event_horizon: 2.0 * M (physics/metrics.py line 84). -/
def event_horizon (b : SchwarzschildMetric) : ℚ := 2 * b.M

/-- Method isco: 6.0 * M. -/
def isco (b : SchwarzschildMetric) : ℚ := 6 * b.M

end SchwarzschildMetric

namespace KerrMetric

/-- Constructor checks of KerrMetric.__init__: shared mass validation, then
raise ValueError when abs(spin) > 1.0. -/
def initChecks (mass_solar : PyFloat) (spin : ℚ) : Except PyError Unit :=
  match GeneralRelativityObject.validate_positive_number mass_solar with
  | .error e => .error e
  | .ok _ => if 1 < |spin| then .error .valueError else .ok ()

/-- Geometric mass attribute M. -/
def M (b : KerrMetric) : ℚ := GeneralRelativityObject.M b.mass_solar

/-- Attribute a = spin * M set by KerrMetric.__init__. -/
def a (b : KerrMetric) : ℚ := b.a_star * b.M

/-- Attribute charge = 0.0 set by KerrMetric.__init__. -/
def charge (_ : KerrMetric) : ℚ := 0

/-- Method event_horizon: (M + sqrt(M^2 - a^2), M - sqrt(M^2 - a^2))
(physics/metrics.py lines 116-118). -/
noncomputable def event_horizon (b : KerrMetric) : ℝ × ℝ :=
  ((b.M : ℝ) + Real.sqrt ((b.M : ℝ) ^ 2 - (b.a : ℝ) ^ 2),
   (b.M : ℝ) - Real.sqrt ((b.M : ℝ) ^ 2 - (b.a : ℝ) ^ 2))

end KerrMetric

namespace ReissnerNordstromMetric

/-- Constructor checks of ReissnerNordstromMetric.__init__: shared mass
validation, then raise ValueError when abs(charge) > 1.0. -/
def initChecks (mass_solar : PyFloat) (charge : ℚ) : Except PyError Unit :=
  match GeneralRelativityObject.validate_positive_number mass_solar with
  | .error e => .error e
  | .ok _ => if 1 < |charge| then .error .valueError else .ok ()

/-- Geometric mass attribute M. -/
def M (b : ReissnerNordstromMetric) : ℚ := GeneralRelativityObject.M b.mass_solar

/-- Attribute Q = charge * M set by ReissnerNordstromMetric.__init__. -/
def Q (b : ReissnerNordstromMetric) : ℚ := b.Q_star * b.M

/-- Attribute spin = 0.0 set by ReissnerNordstromMetric.__init__. -/
def spin (_ : ReissnerNordstromMetric) : ℚ := 0

/-- Method event_horizon: (M + sqrt(M^2 - Q^2), M - sqrt(M^2 - Q^2))
(physics/metrics.py lines 160-162). -/
noncomputable def event_horizon (b : ReissnerNordstromMetric) : ℝ × ℝ :=
  ((b.M : ℝ) + Real.sqrt ((b.M : ℝ) ^ 2 - (b.Q : ℝ) ^ 2),
   (b.M : ℝ) - Real.sqrt ((b.M : ℝ) ^ 2 - (b.Q : ℝ) ^ 2))

end ReissnerNordstromMetric

namespace KerrNewmanMetric

/-- Constructor checks of KerrNewmanMetric.__init__: shared mass validation,
then raise ValueError when spin^2 + charge^2 > 1.0. -/
def initChecks (mass_solar : PyFloat) (spin charge : ℚ) : Except PyError Unit :=
  match GeneralRelativityObject.validate_positive_number mass_solar with
  | .error e => .error e
  | .ok _ =>
    if 1 < spin ^ 2 + charge ^ 2 then .error .valueError else .ok ()

/-- Geometric mass attribute M. -/
def M (b : KerrNewmanMetric) : ℚ := GeneralRelativityObject.M b.mass_solar

/-- Attribute a = spin * M set by KerrNewmanMetric.__init__. -/
def a (b : KerrNewmanMetric) : ℚ := b.a_star * b.M

/-- Attribute Q = charge * M set by KerrNewmanMetric.__init__. -/
def Q (b : KerrNewmanMetric) : ℚ := b.Q_star * b.M

/-- Method event_horizon: (M + sqrt(M^2 - a^2 - Q^2), M - sqrt(...))
(physics/metrics.py lines 197-199). -/
noncomputable def event_horizon (b : KerrNewmanMetric) : ℝ × ℝ :=
  ((b.M : ℝ) + Real.sqrt ((b.M : ℝ) ^ 2 - (b.a : ℝ) ^ 2 - (b.Q : ℝ) ^ 2),
   (b.M : ℝ) - Real.sqrt ((b.M : ℝ) ^ 2 - (b.a : ℝ) ^ 2 - (b.Q : ℝ) ^ 2))

/-- Method effective_potential: unconditionally raises
NotImplementedError (physics/metrics.py lines 211-212). -/
def effective_potential (_ : KerrNewmanMetric) (_r _L : ℝ) : Except PyError ℝ :=
  .error .notImplementedError

end KerrNewmanMetric

/-- Metric component g_tt = 1 - 2M/r of the Schwarzschild redshift
(physics/metrics.py line 92). -/
noncomputable def SchwarzschildMetric.g_tt (b : SchwarzschildMetric) (r : ℝ) : ℝ :=
  1 - 2 * (b.M : ℝ) / r

/-- Method SchwarzschildMetric.gravitational_redshift (physics/metrics.py
lines 90-93): returns float inf when r <= 2M, else 1/sqrt(g_tt) - 1. -/
noncomputable def SchwarzschildMetric.gravitational_redshift
    (b : SchwarzschildMetric) (r : ℝ) : RVal :=
  if r ≤ 2 * (b.M : ℝ) then .pinf
  else .val (1 / Real.sqrt (1 - 2 * (b.M : ℝ) / r) - 1)

/-- Metric component g_tt = 1 - 2Mr/rho2 with rho2 = r^2 + a^2 cos^2(theta)
of the Kerr redshift (physics/metrics.py lines 128-129). -/
noncomputable def KerrMetric.g_tt (b : KerrMetric) (r theta : ℝ) : ℝ :=
  1 - (2 * (b.M : ℝ) * r) / (r ^ 2 + (b.a : ℝ) ^ 2 * Real.cos theta ^ 2)

/-- Method KerrMetric.gravitational_redshift (physics/metrics.py lines
127-131): returns float inf when g_tt <= 0, else 1/sqrt(g_tt) - 1. -/
noncomputable def KerrMetric.gravitational_redshift
    (b : KerrMetric) (r theta : ℝ) : RVal :=
  if b.g_tt r theta ≤ 0 then .pinf
  else .val (1 / Real.sqrt (b.g_tt r theta) - 1)

/-- Metric component val = 1 - 2M/r + Q^2/r^2 of the Reissner-Nordstrom
redshift (physics/metrics.py line 169). -/
noncomputable def ReissnerNordstromMetric.g_tt
    (b : ReissnerNordstromMetric) (r : ℝ) : ℝ :=
  1 - 2 * (b.M : ℝ) / r + (b.Q : ℝ) ^ 2 / r ^ 2

/-- Method ReissnerNordstromMetric.gravitational_redshift
(physics/metrics.py lines 168-171): returns float inf when the metric
component is <= 0, else 1/sqrt(val) - 1. -/
noncomputable def ReissnerNordstromMetric.gravitational_redshift
    (b : ReissnerNordstromMetric) (r : ℝ) : RVal :=
  if b.g_tt r ≤ 0 then .pinf
  else .val (1 / Real.sqrt (b.g_tt r) - 1)

/-- Polar-approximation metric component delta/sigma with sigma = r^2 and
delta = r^2 - 2Mr + a^2 + Q^2 of the Kerr-Newman redshift
(physics/metrics.py lines 207-208). -/
noncomputable def KerrNewmanMetric.g_tt (b : KerrNewmanMetric) (r : ℝ) : ℝ :=
  (r ^ 2 - 2 * (b.M : ℝ) * r + (b.a : ℝ) ^ 2 + (b.Q : ℝ) ^ 2) / r ^ 2

/-- Method KerrNewmanMetric.gravitational_redshift (physics/metrics.py
lines 205-209): computes 1/np.sqrt(delta/sigma) - 1 with NO guard.  The
IEEE float semantics of that expression are made explicit here: np.sqrt of
a negative float is NaN (and NaN propagates), np.float64 1.0/0.0 is +inf
(and inf - 1 is inf), otherwise the value is finite. -/
noncomputable def KerrNewmanMetric.gravitational_redshift
    (b : KerrNewmanMetric) (r : ℝ) : RVal :=
  if b.g_tt r < 0 then .nan
  else if b.g_tt r = 0 then .pinf
  else .val (1 / Real.sqrt (b.g_tt r) - 1)

/-!
Secondary model family (blackholecalc/physics_models.py) and the orbital
dynamics engine (blackholecalc/dynamics_engine.py).  This family uses its
own constant table: G = 6.67430e-11, C = 2.99792e8, M_SOLAR = 1.989e30.
-/

namespace SecondaryModels

/-- Gravitational constant of physics_models.py. -/
def G : ℚ := 66743 / 10 ^ 15

/-- Speed of light of physics_models.py (2.99792e8, a truncated value). -/
def C : ℚ := 299792000

/-- Solar mass of physics_models.py (1.989e30). -/
def M_SOLAR : ℚ := 1989 * 10 ^ 27

/-- State of a Schwarzschild instance of physics_models.py. -/
structure Schwarzschild where
  mass_solar : ℚ

/-- Attribute geometric_mass = G * mass_kg / C^2 set by
Schwarzschild._calculate_fundamental_properties. -/
def Schwarzschild.geometric_mass (b : Schwarzschild) : ℚ :=
  G * (b.mass_solar * M_SOLAR) / C ^ 2

/-- Method Schwarzschild.get_horizon_radius: 2.0 * geometric_mass. -/
def Schwarzschild.get_horizon_radius (b : Schwarzschild) : ℚ :=
  2 * b.geometric_mass

/-- State of a Kerr instance of physics_models.py; spin is the
dimensionless_spin constructor argument. -/
structure Kerr where
  mass_solar : ℚ
  spin : ℚ

/-- Constructor Kerr.__init__ (physics_models.py lines 57-63): the
out-of-range branch for abs(spin) > 1.0 is an explicit no-op (pass), so
construction succeeds for every mass and spin. -/
def Kerr.init (mass_solar spin : ℚ) : Except PyError Kerr :=
  .ok ⟨mass_solar, spin⟩

/-- Attribute geometric_mass = G * mass_kg / C^2 set by
Kerr._calculate_fundamental_properties. -/
def Kerr.geometric_mass (b : Kerr) : ℚ :=
  G * (b.mass_solar * M_SOLAR) / C ^ 2

/-- Attribute a_parameter = spin * geometric_mass set by
Kerr._calculate_fundamental_properties. -/
def Kerr.a_parameter (b : Kerr) : ℚ := b.spin * b.geometric_mass

/-- Method Kerr.get_horizon_radius (physics_models.py lines 70-75): returns
float NaN when abs(spin) > 1.0, else geometric_mass +
sqrt(geometric_mass^2 - a_parameter^2). -/
noncomputable def Kerr.get_horizon_radius (b : Kerr) : RVal :=
  if 1 < |b.spin| then .nan
  else .val ((b.geometric_mass : ℝ) +
    Real.sqrt ((b.geometric_mass : ℝ) ^ 2 - (b.a_parameter : ℝ) ^ 2))

/-- Union of the secondary model family, as dispatched on by isinstance in
dynamics_engine.py. -/
inductive BlackHoleModel where
  | schwarzschild (b : Schwarzschild)
  | kerr (b : Kerr)

/-- Method OrbitalDynamics.calculate_isco_radius (dynamics_engine.py lines
17-41): 6 * geometric_mass for Schwarzschild; raises NotImplementedError
for Kerr. -/
def OrbitalDynamics.calculate_isco_radius : BlackHoleModel → Except PyError ℚ
  | .schwarzschild b => .ok (6 * b.geometric_mass)
  | .kerr _ => .error .notImplementedError

end SecondaryModels

/-- Classification record returned by BlackHoleClassifier.identify
(physics/classifier.py). -/
structure ClassificationRecord where
  mtype : String
  descr : String
  status : String
  is_physical : Bool
deriving DecidableEq

namespace BlackHoleClassifier

/-- Static method BlackHoleClassifier.identify (physics/classifier.py lines
4-30): validity check spin^2 + charge^2 <= 1, then a four-way branch on the
zero-ness of spin and charge. -/
def identify (mass spin charge : ℚ) : ClassificationRecord :=
  let is_stable : Bool := decide (spin ^ 2 + charge ^ 2 ≤ 1)
  let status := if is_stable then "Stable Event Horizon"
    else "UNSTABLE (Naked Singularity)"
  if spin = 0 ∧ charge = 0 then
    ⟨"Schwarzschild", "Static, Neutral", status, is_stable⟩
  else if spin ≠ 0 ∧ charge = 0 then
    ⟨"Kerr", "Rotating, Neutral", status, is_stable⟩
  else if spin = 0 ∧ charge ≠ 0 then
    ⟨"Reissner-Nordström", "Static, Charged", status, is_stable⟩
  else
    ⟨"Kerr-Newman", "Rotating, Charged", status, is_stable⟩

/-- Modelled from the spec: the four-way decision table on the zero-ness of
spin and charge, used only to compare the label computed by the classifier
against the description of the branch given in the spec. -/
def specTypeLabel : Bool → Bool → String
  | true, true => "Schwarzschild"
  | false, true => "Kerr"
  | true, false => "Reissner-Nordström"
  | false, false => "Kerr-Newman"

end BlackHoleClassifier

/-- Union of the primary metric family, as dispatched on by isinstance in
physics/thermodynamics.py. -/
inductive GRObject where
  | schw (b : SchwarzschildMetric)
  | kerr (b : KerrMetric)
  | rn (b : ReissnerNordstromMetric)
  | kn (b : KerrNewmanMetric)

namespace GRObject

/-- Shared attribute mass_solar of the dispatched object. -/
def mass_solar : GRObject → ℚ
  | .schw b => b.mass_solar
  | .kerr b => b.mass_solar
  | .rn b => b.mass_solar
  | .kn b => b.mass_solar

/-- Shared attribute M of the dispatched object. -/
def M : GRObject → ℚ
  | .schw b => b.M
  | .kerr b => b.M
  | .rn b => b.M
  | .kn b => b.M

end GRObject

namespace Thermodynamics

/-- Base Schwarzschild Hawking temperature T_sch = 6.169e-8 * (1.0 /
mass_solar) of Thermodynamics.analyze (physics/thermodynamics.py line
21). -/
def T_sch (mass_solar : ℚ) : ℚ := 6169 / 10 ^ 11 * (1 / mass_solar)

/-- Temperature component of Thermodynamics.analyze
(physics/thermodynamics.py lines 20-40): T_sch by default; for Kerr and
Kerr-Newman instances, scaled by kappa_geom / kappa_sch where kappa_geom =
(r_plus - M) / (2 pi (r_plus^2 + a^2)) and kappa_sch = 1 / (2 * (2M)). -/
noncomputable def temperature : GRObject → ℝ
  | .schw b => (T_sch b.mass_solar : ℝ)
  | .rn b => (T_sch b.mass_solar : ℝ)
  | .kerr b =>
    let r_plus := b.event_horizon.1
    let kappa_geom := (r_plus - (b.M : ℝ)) /
      (2 * Real.pi * (r_plus ^ 2 + (b.a : ℝ) ^ 2))
    let r_sch := 2 * (b.M : ℝ)
    let kappa_sch := 1 / (2 * r_sch)
    (T_sch b.mass_solar : ℝ) * (kappa_geom / kappa_sch)
  | .kn b =>
    let r_plus := b.event_horizon.1
    let kappa_geom := (r_plus - (b.M : ℝ)) /
      (2 * Real.pi * (r_plus ^ 2 + (b.a : ℝ) ^ 2))
    let r_sch := 2 * (b.M : ℝ)
    let kappa_sch := 1 / (2 * r_sch)
    (T_sch b.mass_solar : ℝ) * (kappa_geom / kappa_sch)

end Thermodynamics

namespace WaveformSynthesizer

/-- Sample grid np.linspace(a, b, n): n evenly spaced points from a to b,
endpoints included. -/
def linspace (a b : ℚ) (n : ℕ) : List ℚ :=
  (List.range n).map (fun i : ℕ => a + (b - a) * (i : ℚ) / ((n : ℚ) - 1))

/-- Time grid t = np.linspace(-0.2, 0.05, 3000) of generate_chirp
(visualization/visualizer.py line 163). -/
def times : List ℚ := linspace (-1/5) (1/20) 3000

/-- Chirp mass M_chirp_solar = (m1*m2)^(3/5) / (m1+m2)^(1/5)
(visualization/visualizer.py line 159). -/
noncomputable def M_chirp_solar (m1 m2 : ℝ) : ℝ :=
  (m1 * m2) ^ ((3 : ℝ) / 5) / (m1 + m2) ^ ((1 : ℝ) / 5)

/-- Dimensionless time constant Mc_sec = (M_chirp_solar * M_sun) * G / c^3
(visualization/visualizer.py lines 160-161). -/
noncomputable def Mc_sec (m1 m2 : ℝ) : ℝ :=
  M_chirp_solar m1 m2 * (PhysicalConstants.M_sun : ℝ) *
    (PhysicalConstants.G : ℝ) / (PhysicalConstants.c : ℝ) ^ 3

/-- Inspiral-phase strain sample (visualization/visualizer.py lines
165-169): tau = max(-t, 1e-5), phase = -2 * (5*Mc_sec/tau)^(5/8), amp =
1e-21 * M_chirp_solar * tau^(-0.25), h = amp * cos(phase). -/
noncomputable def inspiralStrain (m1 m2 t : ℝ) : ℝ :=
  let tau := max (-t) ((1 : ℝ) / 100000)
  let phase := -2 * (5 * Mc_sec m1 m2 / tau) ^ ((5 : ℝ) / 8)
  let amp := (1 / 10 ^ 21 : ℝ) * M_chirp_solar m1 m2 * tau ^ (-(1 : ℝ) / 4)
  amp * Real.cos phase

/-- Last inspiral strain sample h[~idx_ring][-1]: the inspiral strain at
the last sample time not exceeding 0 (visualization/visualizer.py line
176). -/
noncomputable def h_last (m1 m2 : ℝ) : ℝ :=
  inspiralStrain m1 m2
    (((times.filter (fun tq => !decide ((0 : ℚ) < tq))).getLast?.getD 0 : ℚ) : ℝ)

/-- Ringdown-phase strain sample for t > 0 (visualization/visualizer.py
lines 172-176): f_ring = 250 * (60/(m1+m2)), decay = 0.004 * ((m1+m2)/60),
h = h_last * exp(-t/decay) * cos(2 pi f_ring t). -/
noncomputable def ringdownStrain (m1 m2 t : ℝ) : ℝ :=
  let f_ring := 250 * (60 / (m1 + m2))
  let decay := (4 / 1000 : ℝ) * ((m1 + m2) / 60)
  h_last m1 m2 * Real.exp (-t / decay) * Real.cos (2 * Real.pi * f_ring * t)

/-- Static method WaveformSynthesizer.generate_chirp
(visualization/visualizer.py lines 152-179): returns the time grid, the
strain samples (inspiral for t <= 0, ringdown overwrite for t > 0), and
the chirp mass in solar masses. -/
noncomputable def generate_chirp (m1 m2 : ℝ) : List ℚ × List ℝ × ℝ :=
  (times,
   times.map (fun tq =>
     if (0 : ℚ) < tq then ringdownStrain m1 m2 (tq : ℝ)
     else inspiralStrain m1 m2 (tq : ℝ)),
   M_chirp_solar m1 m2)

end WaveformSynthesizer

/-!
Claim theorems.
-/

/-- Claim C9: for every positive x, the unit-conversion round-trip
mass_geom_to_si (mass_si_to_geom x) returns x exactly, over exact rational
arithmetic. -/
theorem C9_mass_roundtrip (x : ℚ) (h : 0 < x) :
    UnitManager.mass_geom_to_si (UnitManager.mass_si_to_geom x) = x := by
  unfold UnitManager.mass_geom_to_si UnitManager.mass_si_to_geom
    PhysicalConstants.G PhysicalConstants.c
  norm_num

/-- Witness for C9 at x = 1. -/
theorem C9_mass_roundtrip_witness :
    UnitManager.mass_geom_to_si (UnitManager.mass_si_to_geom 1) = 1 :=
  C9_mass_roundtrip 1 (by norm_num)

/-- Claim C3: for every mass_solar > 0, the Schwarzschild event horizon
equals 2 * M where M = G * mass_kg / c^2 and mass_kg = mass_solar * M_sun
(exactly, hence within 1e-10 relative tolerance). -/
theorem C3_schwarzschild_horizon (m : ℚ) (h : 0 < m) :
    SchwarzschildMetric.event_horizon ⟨m⟩ =
      2 * (PhysicalConstants.G * (m * PhysicalConstants.M_sun) /
        PhysicalConstants.c ^ 2) := rfl

/-- Witness for C3 at mass_solar = 10. -/
theorem C3_schwarzschild_horizon_witness :
    SchwarzschildMetric.event_horizon ⟨10⟩ =
      2 * (PhysicalConstants.G * (10 * PhysicalConstants.M_sun) /
        PhysicalConstants.c ^ 2) :=
  C3_schwarzschild_horizon 10 (by norm_num)

/-- Claim C2 counterexample: a NaN mass is not a finite positive number,
yet Schwarzschild construction succeeds instead of failing with an
InvalidParameter error. -/
theorem C2_counterexample_nan_mass :
    SchwarzschildMetric.initChecks PyFloat.nan = Except.ok () ∧
    PyFloat.nan.isFinitePos = false := ⟨rfl, rfl⟩

/-- Claim C2 (amended): for every variant, construction succeeds exactly
when the mass is not <= 0 under IEEE comparison (so NaN and +infinity
masses are accepted, not rejected) and the per-variant spin/charge bound
holds (|spin| <= 1 for Kerr, |charge| <= 1 for Reissner-Nordstrom, spin^2 +
charge^2 <= 1 for Kerr-Newman); every construction failure is an
InvalidParameter (ValueError). -/
theorem C2_construction_validation (m : PyFloat) (s q : ℚ) :
    (exceptIsOk (SchwarzschildMetric.initChecks m) = !m.le (.fin 0)) ∧
    (exceptIsOk (KerrMetric.initChecks m s) =
      (!m.le (.fin 0) && decide (|s| ≤ 1))) ∧
    (exceptIsOk (ReissnerNordstromMetric.initChecks m q) =
      (!m.le (.fin 0) && decide (|q| ≤ 1))) ∧
    (exceptIsOk (KerrNewmanMetric.initChecks m s q) =
      (!m.le (.fin 0) && decide (s ^ 2 + q ^ 2 ≤ 1))) ∧
    (exceptIsInvalidParameter (SchwarzschildMetric.initChecks m) =
      !exceptIsOk (SchwarzschildMetric.initChecks m)) ∧
    (exceptIsInvalidParameter (KerrMetric.initChecks m s) =
      !exceptIsOk (KerrMetric.initChecks m s)) ∧
    (exceptIsInvalidParameter (ReissnerNordstromMetric.initChecks m q) =
      !exceptIsOk (ReissnerNordstromMetric.initChecks m q)) ∧
    (exceptIsInvalidParameter (KerrNewmanMetric.initChecks m s q) =
      !exceptIsOk (KerrNewmanMetric.initChecks m s q)) := by
  have hs := em (1 < |s|)
  have hq := em (1 < |q|)
  have hsq := em (1 < s ^ 2 + q ^ 2)
  cases m <;>
    rcases hs with hs | hs <;> rcases hq with hq | hq <;>
      rcases hsq with hsq | hsq <;>
    simp [SchwarzschildMetric.initChecks, KerrMetric.initChecks,
      ReissnerNordstromMetric.initChecks, KerrNewmanMetric.initChecks,
      GeneralRelativityObject.validate_positive_number, PyFloat.le,
      exceptIsOk, exceptIsInvalidParameter, hs, hq, hsq, not_lt.mp,
      le_of_not_lt, not_le_of_lt] <;>
    first
    | rfl
    | (rename_i a
       by_cases ha : a ≤ (0 : ℚ) <;>
         simp [ha, exceptIsOk, exceptIsInvalidParameter, hs, hq, hsq,
           le_of_not_lt, not_le_of_lt])

/-- Claim C5: the Kerr-Newman effective potential always fails with the
NotImplemented signal for every model and every r, L, the secondary model
family ISCO computation fails with the NotImplemented signal for its Kerr
model, and neither failure is an InvalidParameter failure. -/
theorem C5_not_implemented (b : KerrNewmanMetric) (r L : ℝ)
    (bk : SecondaryModels.Kerr) :
    exceptIsNotImplemented (b.effective_potential r L) = true ∧
    exceptIsInvalidParameter (b.effective_potential r L) = false ∧
    exceptIsNotImplemented
      (SecondaryModels.OrbitalDynamics.calculate_isco_radius
        (.kerr bk)) = true ∧
    exceptIsInvalidParameter
      (SecondaryModels.OrbitalDynamics.calculate_isco_radius
        (.kerr bk)) = false :=
  ⟨rfl, rfl, rfl, rfl⟩

/-- Claim C6: the classifier always returns a record whose is_physical flag
equals the predicate spin^2 + charge^2 <= 1, whose type label is the
four-way decision table on the zero-ness of spin and charge; in particular
classify(m, 0, 0) is the Schwarzschild record with is_physical = true for
every m, and classify(m, 1.1, 0) has is_physical = false. -/
theorem C6_classifier (m s c : ℚ) :
    ((BlackHoleClassifier.identify m s c).is_physical =
      decide (s ^ 2 + c ^ 2 ≤ 1)) ∧
    ((BlackHoleClassifier.identify m s c).mtype =
      BlackHoleClassifier.specTypeLabel (decide (s = 0)) (decide (c = 0))) ∧
    (BlackHoleClassifier.identify m 0 0 =
      ⟨"Schwarzschild", "Static, Neutral", "Stable Event Horizon", true⟩) ∧
    ((BlackHoleClassifier.identify m (11/10) 0).is_physical = false) := by
  refine ⟨?_, ?_, ?_, ?_⟩
  · by_cases h1 : s = 0 <;> by_cases h2 : c = 0 <;>
      simp [BlackHoleClassifier.identify, h1, h2]
  · by_cases h1 : s = 0 <;> by_cases h2 : c = 0 <;>
      simp [BlackHoleClassifier.identify, BlackHoleClassifier.specTypeLabel,
        h1, h2]
  · simp [BlackHoleClassifier.identify]
  · simp [BlackHoleClassifier.identify]
    rw [abs_of_pos (by norm_num : (0 : ℚ) < 11 / 10)]
    norm_num

/-- Claim C10: the secondary Kerr constructor accepts any real spin without
raising; get_horizon_radius returns the NaN sentinel exactly when |spin| >
1, and returns geometric_mass + sqrt(geometric_mass^2 - a_parameter^2) when
|spin| <= 1. -/
theorem C10_secondary_kerr (m s : ℚ) :
    (SecondaryModels.Kerr.init m s = Except.ok ⟨m, s⟩) ∧
    (SecondaryModels.Kerr.get_horizon_radius ⟨m, s⟩ = RVal.nan ↔ 1 < |s|) ∧
    (|s| ≤ 1 → SecondaryModels.Kerr.get_horizon_radius ⟨m, s⟩ =
      RVal.val ((SecondaryModels.Kerr.geometric_mass ⟨m, s⟩ : ℝ) +
        Real.sqrt ((SecondaryModels.Kerr.geometric_mass ⟨m, s⟩ : ℝ) ^ 2 -
          (SecondaryModels.Kerr.a_parameter ⟨m, s⟩ : ℝ) ^ 2))) := by
  refine ⟨rfl, ?_, ?_⟩
  · unfold SecondaryModels.Kerr.get_horizon_radius
    split_ifs with h <;> simp [h]
  · intro hs
    unfold SecondaryModels.Kerr.get_horizon_radius
    rw [if_neg (not_lt.mpr hs)]

/-- Witness for C10: spin 2 is out of range and yields the NaN sentinel. -/
theorem C10_secondary_kerr_witness :
    SecondaryModels.Kerr.get_horizon_radius ⟨1, 2⟩ = RVal.nan :=
  (C10_secondary_kerr 1 2).2.1.mpr (by norm_num)

/-- Claim C1 counterexample: for the Kerr-Newman variant with mass 1, spin
0 and charge 0, at the interior radius r = 1000 the polar metric component
is <= 0, yet gravitational_redshift returns NaN, not +infinity as the claim
requires for every variant. -/
theorem C1_counterexample_kerr_newman :
    KerrNewmanMetric.g_tt ⟨1, 0, 0⟩ 1000 ≤ 0 ∧
    KerrNewmanMetric.gravitational_redshift ⟨1, 0, 0⟩ 1000 ≠ RVal.pinf := by
  have hM : (600 : ℚ) ≤ GeneralRelativityObject.M 1 := by
    unfold GeneralRelativityObject.M GeneralRelativityObject.mass_kg
      UnitManager.mass_si_to_geom PhysicalConstants.G PhysicalConstants.c
      PhysicalConstants.M_sun
    norm_num
  have hM' : (600 : ℝ) ≤ ((KerrNewmanMetric.M ⟨1, 0, 0⟩ : ℚ) : ℝ) := by
    exact_mod_cast hM
  have hgtt : KerrNewmanMetric.g_tt ⟨1, 0, 0⟩ 1000 < 0 := by
    unfold KerrNewmanMetric.g_tt
    have ha : (KerrNewmanMetric.a ⟨1, 0, 0⟩ : ℚ) = 0 := by
      unfold KerrNewmanMetric.a; norm_num
    have hq : (KerrNewmanMetric.Q ⟨1, 0, 0⟩ : ℚ) = 0 := by
      unfold KerrNewmanMetric.Q; norm_num
    rw [ha, hq]
    push_cast
    have hnum : (1000 : ℝ) ^ 2 - 2 * ((KerrNewmanMetric.M ⟨1, 0, 0⟩ : ℚ) : ℝ)
        * 1000 + 0 ^ 2 + 0 ^ 2 < 0 := by nlinarith [hM']
    exact div_neg_of_neg_of_pos hnum (by norm_num)
  refine ⟨le_of_lt hgtt, ?_⟩
  unfold KerrNewmanMetric.gravitational_redshift
  rw [if_pos hgtt]
  intro hcontra
  exact RVal.noConfusion hcontra

/-- Claim C1 (amended): for the Schwarzschild, Kerr and Reissner-Nordstrom
variants, gravitational_redshift returns the +infinity sentinel exactly
when the variant-specific metric component g_tt at (r, theta) is <= 0, and
the finite value 1/sqrt(g_tt) - 1 otherwise; the Kerr-Newman variant has no
guard, so it returns float NaN (not +infinity) when its polar metric
component delta/sigma is negative, +infinity exactly when it is zero, and
the finite value otherwise. -/
theorem C1_redshift_sentinel (b1 : SchwarzschildMetric) (b2 : KerrMetric)
    (b3 : ReissnerNordstromMetric) (b4 : KerrNewmanMetric) (r theta : ℝ)
    (hr : 0 < r) :
    (b1.gravitational_redshift r = RVal.pinf ↔ b1.g_tt r ≤ 0) ∧
    (0 < b1.g_tt r → b1.gravitational_redshift r =
      RVal.val (1 / Real.sqrt (b1.g_tt r) - 1)) ∧
    (b2.gravitational_redshift r theta = RVal.pinf ↔ b2.g_tt r theta ≤ 0) ∧
    (0 < b2.g_tt r theta → b2.gravitational_redshift r theta =
      RVal.val (1 / Real.sqrt (b2.g_tt r theta) - 1)) ∧
    (b3.gravitational_redshift r = RVal.pinf ↔ b3.g_tt r ≤ 0) ∧
    (0 < b3.g_tt r → b3.gravitational_redshift r =
      RVal.val (1 / Real.sqrt (b3.g_tt r) - 1)) ∧
    (b4.gravitational_redshift r = RVal.nan ↔ b4.g_tt r < 0) ∧
    (b4.gravitational_redshift r = RVal.pinf ↔ b4.g_tt r = 0) ∧
    (0 < b4.g_tt r → b4.gravitational_redshift r =
      RVal.val (1 / Real.sqrt (b4.g_tt r) - 1)) := by
  have key : r ≤ 2 * (b1.M : ℝ) ↔ b1.g_tt r ≤ 0 := by
    unfold SchwarzschildMetric.g_tt
    rw [sub_nonpos, one_le_div hr]
  refine ⟨?_, ?_, ?_, ?_, ?_, ?_, ?_, ?_, ?_⟩
  · unfold SchwarzschildMetric.gravitational_redshift
    split_ifs with h
    · simp [key.mp h]
    · rw [← key]; simp [h]
  · intro hg
    unfold SchwarzschildMetric.gravitational_redshift
    rw [if_neg (fun hc => absurd (key.mp hc) (not_le.mpr hg))]
    rfl
  · unfold KerrMetric.gravitational_redshift
    split_ifs with h <;> simp [h]
  · intro hg
    unfold KerrMetric.gravitational_redshift
    rw [if_neg (not_le.mpr hg)]
  · unfold ReissnerNordstromMetric.gravitational_redshift
    split_ifs with h <;> simp [h]
  · intro hg
    unfold ReissnerNordstromMetric.gravitational_redshift
    rw [if_neg (not_le.mpr hg)]
  · unfold KerrNewmanMetric.gravitational_redshift
    split_ifs with h1 h2
    · simp [h1]
    · simp [h1]
    · simp [h1]
  · unfold KerrNewmanMetric.gravitational_redshift
    split_ifs with h1 h2
    · simp [ne_of_lt h1]
    · simp [h2]
    · simp [h2]
  · intro hg
    unfold KerrNewmanMetric.gravitational_redshift
    rw [if_neg (not_lt.mpr (le_of_lt hg)), if_neg (ne_of_gt hg)]

/-- Witness for C1 (amended): a Schwarzschild model of one solar mass at
the interior radius r = 1 has g_tt <= 0 and redshift +infinity. -/
theorem C1_redshift_sentinel_witness :
    SchwarzschildMetric.gravitational_redshift ⟨1⟩ 1 = RVal.pinf := by
  have hM : (500 : ℚ) ≤ GeneralRelativityObject.M 1 := by
    unfold GeneralRelativityObject.M GeneralRelativityObject.mass_kg
      UnitManager.mass_si_to_geom PhysicalConstants.G PhysicalConstants.c
      PhysicalConstants.M_sun
    norm_num
  have hM' : (500 : ℝ) ≤ ((SchwarzschildMetric.M ⟨1⟩ : ℚ) : ℝ) := by
    exact_mod_cast hM
  refine (C1_redshift_sentinel ⟨1⟩ ⟨1, 0⟩ ⟨1, 0⟩ ⟨1, 0, 0⟩ 1 0
    (by norm_num)).1.mpr ?_
  unfold SchwarzschildMetric.g_tt
  have : (1 : ℝ) ≤ 2 * ((SchwarzschildMetric.M ⟨1⟩ : ℚ) : ℝ) := by linarith
  have hpos : (0 : ℝ) < 2 * ((SchwarzschildMetric.M ⟨1⟩ : ℚ) : ℝ) := by linarith
  rw [sub_nonpos, div_one]
  linarith

/-- Claim C4: for validly constructed Kerr, Reissner-Nordstrom and
Kerr-Newman models, event_horizon returns (outer, inner) with outer >=
inner and outer/inner = M +- sqrt(M^2 - a^2 - Q^2) (a and Q being the
per-variant spin and charge parameters in meters, zero where absent); at the
extremal Kerr limit spin_star = 1 the outer horizon equals M, and outer -
inner = 0 when spin^2 + charge^2 = 1. -/
theorem C4_horizon_pair (bk : KerrMetric) (brn : ReissnerNordstromMetric)
    (bkn : KerrNewmanMetric) (hk : bk.a_star ^ 2 ≤ 1)
    (hrn : brn.Q_star ^ 2 ≤ 1) (hkn : bkn.a_star ^ 2 + bkn.Q_star ^ 2 ≤ 1) :
    (bk.event_horizon.2 ≤ bk.event_horizon.1) ∧
    (bk.event_horizon =
      ((bk.M : ℝ) + Real.sqrt ((bk.M : ℝ) ^ 2 - (bk.a : ℝ) ^ 2 -
        ((bk.charge * bk.M : ℚ) : ℝ) ^ 2),
       (bk.M : ℝ) - Real.sqrt ((bk.M : ℝ) ^ 2 - (bk.a : ℝ) ^ 2 -
        ((bk.charge * bk.M : ℚ) : ℝ) ^ 2))) ∧
    (brn.event_horizon.2 ≤ brn.event_horizon.1) ∧
    (brn.event_horizon =
      ((brn.M : ℝ) + Real.sqrt ((brn.M : ℝ) ^ 2 -
        ((brn.spin * brn.M : ℚ) : ℝ) ^ 2 - (brn.Q : ℝ) ^ 2),
       (brn.M : ℝ) - Real.sqrt ((brn.M : ℝ) ^ 2 -
        ((brn.spin * brn.M : ℚ) : ℝ) ^ 2 - (brn.Q : ℝ) ^ 2))) ∧
    (bkn.event_horizon.2 ≤ bkn.event_horizon.1) ∧
    (bkn.event_horizon =
      ((bkn.M : ℝ) + Real.sqrt ((bkn.M : ℝ) ^ 2 - (bkn.a : ℝ) ^ 2 -
        (bkn.Q : ℝ) ^ 2),
       (bkn.M : ℝ) - Real.sqrt ((bkn.M : ℝ) ^ 2 - (bkn.a : ℝ) ^ 2 -
        (bkn.Q : ℝ) ^ 2))) ∧
    (bk.a_star = 1 → bk.event_horizon.1 = (bk.M : ℝ)) ∧
    (bkn.a_star ^ 2 + bkn.Q_star ^ 2 = 1 →
      bkn.event_horizon.1 - bkn.event_horizon.2 = 0) := by
  refine ⟨?_, ?_, ?_, ?_, ?_, ?_, ?_, ?_⟩
  · have := Real.sqrt_nonneg ((bk.M : ℝ) ^ 2 - (bk.a : ℝ) ^ 2)
    unfold KerrMetric.event_horizon
    dsimp only
    linarith
  · unfold KerrMetric.event_horizon
    have hc : ((bk.charge * bk.M : ℚ) : ℝ) ^ 2 = 0 := by
      unfold KerrMetric.charge
      push_cast
      ring
    rw [hc, sub_zero]
  · have := Real.sqrt_nonneg ((brn.M : ℝ) ^ 2 - (brn.Q : ℝ) ^ 2)
    unfold ReissnerNordstromMetric.event_horizon
    dsimp only
    linarith
  · unfold ReissnerNordstromMetric.event_horizon
    have hc : ((brn.spin * brn.M : ℚ) : ℝ) ^ 2 = 0 := by
      unfold ReissnerNordstromMetric.spin
      push_cast
      ring
    rw [hc]
    rw [show (brn.M : ℝ) ^ 2 - 0 - (brn.Q : ℝ) ^ 2
        = (brn.M : ℝ) ^ 2 - (brn.Q : ℝ) ^ 2 by ring]
  · have := Real.sqrt_nonneg
      ((bkn.M : ℝ) ^ 2 - (bkn.a : ℝ) ^ 2 - (bkn.Q : ℝ) ^ 2)
    unfold KerrNewmanMetric.event_horizon
    dsimp only
    linarith
  · rfl
  · intro h
    have ha : (bk.a : ℚ) = bk.M := by
      unfold KerrMetric.a
      rw [h, one_mul]
    unfold KerrMetric.event_horizon
    dsimp only
    rw [ha, sub_self, Real.sqrt_zero, add_zero]
  · intro h
    have h' : (bkn.a_star : ℝ) ^ 2 + (bkn.Q_star : ℝ) ^ 2 = 1 := by
      exact_mod_cast h
    have hrad : (bkn.M : ℝ) ^ 2 - (bkn.a : ℝ) ^ 2 - (bkn.Q : ℝ) ^ 2 = 0 := by
      unfold KerrNewmanMetric.a KerrNewmanMetric.Q
      push_cast
      nlinarith [h']
    unfold KerrNewmanMetric.event_horizon
    dsimp only
    rw [hrad, Real.sqrt_zero]
    ring

/-- Witness for C4: the extremal Kerr model with mass 1 and spin 1 has
outer horizon equal to M. -/
theorem C4_horizon_pair_witness :
    (KerrMetric.event_horizon ⟨1, 1⟩).1 = ((KerrMetric.M ⟨1, 1⟩ : ℚ) : ℝ) :=
  (C4_horizon_pair ⟨1, 1⟩ ⟨1, 0⟩ ⟨1, 0, 1⟩ (by norm_num) (by norm_num)
    (by norm_num)).2.2.2.2.2.2.1 rfl

/-- Claim C7: the Schwarzschild Hawking temperature is 6.169e-8 /
mass_solar (so exactly 6.169e-9 at mass_solar = 10), and for the rotating
variants the temperature is T_sch * kappa / kappa_sch with kappa = (r_plus
- M) / (2 pi (r_plus^2 + a^2)) and kappa_sch = 1 / (4 M). -/
theorem C7_hawking_temperature (m : ℚ) (bk : KerrMetric)
    (bkn : KerrNewmanMetric) :
    (Thermodynamics.temperature (.schw ⟨m⟩) =
      ((6169 / 10 ^ 11 : ℚ) : ℝ) / (m : ℝ)) ∧
    (Thermodynamics.temperature (.schw ⟨10⟩) = ((6169 / 10 ^ 12 : ℚ) : ℝ)) ∧
    (Thermodynamics.temperature (.kerr bk) =
      (Thermodynamics.T_sch bk.mass_solar : ℝ) *
        (((bk.event_horizon.1 - (bk.M : ℝ)) /
          (2 * Real.pi * (bk.event_horizon.1 ^ 2 + (bk.a : ℝ) ^ 2))) /
         (1 / (4 * (bk.M : ℝ))))) ∧
    (Thermodynamics.temperature (.kn bkn) =
      (Thermodynamics.T_sch bkn.mass_solar : ℝ) *
        (((bkn.event_horizon.1 - (bkn.M : ℝ)) /
          (2 * Real.pi * (bkn.event_horizon.1 ^ 2 + (bkn.a : ℝ) ^ 2))) /
         (1 / (4 * (bkn.M : ℝ))))) := by
  refine ⟨?_, ?_, ?_, ?_⟩
  · show (Thermodynamics.T_sch m : ℝ) = _
    unfold Thermodynamics.T_sch
    push_cast
    rw [mul_one_div]
  · show (Thermodynamics.T_sch 10 : ℝ) = _
    norm_num [Thermodynamics.T_sch]
  · show (Thermodynamics.T_sch bk.mass_solar : ℝ) * _ = _
    congr 2
    ring
  · show (Thermodynamics.T_sch bkn.mass_solar : ℝ) * _ = _
    congr 2
    ring

set_option maxRecDepth 10000 in
/-- Claim C8: for every positive pair of masses generate_chirp returns a
chirp mass equal to (m1*m2)^(3/5) / (m1+m2)^(1/5) and time and strain
sequences of equal length 3000 sampling the window from -0.2 s to 0.05 s
inclusive. -/
theorem C8_generate_chirp (m1 m2 : ℝ) (h1 : 0 < m1) (h2 : 0 < m2) :
    ((WaveformSynthesizer.generate_chirp m1 m2).2.2 =
      (m1 * m2) ^ ((3 : ℝ) / 5) / (m1 + m2) ^ ((1 : ℝ) / 5)) ∧
    ((WaveformSynthesizer.generate_chirp m1 m2).1.length =
      (WaveformSynthesizer.generate_chirp m1 m2).2.1.length) ∧
    ((WaveformSynthesizer.generate_chirp m1 m2).1.length = 3000) ∧
    ((WaveformSynthesizer.generate_chirp m1 m2).1.get? 0 = some (-1/5)) ∧
    ((WaveformSynthesizer.generate_chirp m1 m2).1.get? 2999 = some (1/20)) := by
  have e : (WaveformSynthesizer.generate_chirp m1 m2).1 =
      WaveformSynthesizer.times := rfl
  refine ⟨rfl, ?_, ?_, ?_, ?_⟩
  · simp only [WaveformSynthesizer.generate_chirp, List.length_map]
  · simp only [WaveformSynthesizer.generate_chirp,
      WaveformSynthesizer.times, WaveformSynthesizer.linspace,
      List.length_map, List.length_range]
  · rw [e]
    unfold WaveformSynthesizer.times WaveformSynthesizer.linspace
    rw [List.get?_eq_getElem?]
    simp [List.getElem?_map, List.getElem?_range]
  · rw [e]
    unfold WaveformSynthesizer.times WaveformSynthesizer.linspace
    rw [List.get?_eq_getElem?]
    simp [List.getElem?_map, List.getElem?_range]
    norm_num

/-- Witness for C8 at m1 = m2 = 30: the chirp mass is (900)^(3/5) /
(60)^(1/5). -/
theorem C8_generate_chirp_witness :
    (WaveformSynthesizer.generate_chirp 30 30).2.2 =
      (30 * 30 : ℝ) ^ ((3 : ℝ) / 5) / (30 + 30 : ℝ) ^ ((1 : ℝ) / 5) :=
  (C8_generate_chirp 30 30 (by norm_num) (by norm_num)).1
